import Mathlib

/-!
Verification development for the crypto_monitor proxy subsystem.

Shallow embedding of the proxy pool engine:
- `ProxyStats`, `ProxyPool` state and operations from
  crypto_monitor/infrastructure/proxy/proxy_pool.py,
- `ProxyScore`, `ProxyManager` state and operations from
  crypto_monitor/infrastructure/proxy/proxy_manager.py,
- `ProxySource` and its manager from
  crypto_monitor/infrastructure/proxy/proxy_source_manager.py.

Python floats are modelled as rationals (ℚ), Python ints as ℕ/ℤ,
datetimes as rational epoch seconds, and Python dicts as association
lists with first-match lookup and insertion-order iteration, matching
dict semantics for the states reachable here.
-/

/-- Lookup in an association list, returning the value of the first entry
whose key matches (Python `d.get(k)` / `d[k]`). -/
def lookupA {α : Type} (k : String) : List (String × α) → Option α
  | [] => none
  | (k', v) :: rest => if k' = k then some v else lookupA k rest

/-- Assignment `d[k] = v` on an association list: replaces the first entry
with key `k`, or appends a new entry at the end (dict insertion order). -/
def setEntry {α : Type} (k : String) (v : α) : List (String × α) → List (String × α)
  | [] => [(k, v)]
  | (k', v') :: rest => if k' = k then (k, v) :: rest else (k', v') :: setEntry k v rest

/-- Deletion `del d[k]` (or `d.pop(k, None)`) on an association list. -/
def removeKey {α : Type} (k : String) (l : List (String × α)) : List (String × α) :=
  l.filter (fun e => e.1 ≠ k)

/-- First element maximizing `f`, as Python `max(xs, key=f)`: iterating left
to right and replacing the current best only on a strictly greater value
keeps the earliest maximal element. Returns `none` on the empty list. -/
def pickBest {α : Type} (f : α → ℚ) : List α → Option α
  | [] => none
  | x :: xs =>
    match pickBest f xs with
    | none => some x
    | some y => if f x < f y then some y else some x

/-- Sliding-window append with `deque(maxlen=100)` semantics: append on the
right, dropping the oldest (leftmost) entry once the window is full. -/
def pushWindow (w : List ℚ) (x : ℚ) : List ℚ :=
  if w.length < 100 then w ++ [x] else w.drop 1 ++ [x]

/-- Failure-type counters of `ProxyStats.failure_types`. -/
structure FailureTypes where
  timeout : ℕ := 0
  connection_error : ℕ := 0
  http_error : ℕ := 0
  other : ℕ := 0
deriving DecidableEq

/-- Classification step of `ProxyStats.update`: a key present in the
failure-type dict is bumped, anything else (including `None`) counts as
`other`. -/
def bumpFailureType (f : FailureTypes) : Option String → FailureTypes
  | some "timeout" => { f with timeout := f.timeout + 1 }
  | some "connection_error" => { f with connection_error := f.connection_error + 1 }
  | some "http_error" => { f with http_error := f.http_error + 1 }
  | _ => { f with other := f.other + 1 }

/-- Twitter validation metrics attached to a proxy's stats (the fields of
the `twitter_metrics` dict read by `calculate_proxy_score`). -/
structure TwitterMetrics where
  success : Bool := false
  response_time : ℚ := 0
  anonymous : Bool := false
deriving DecidableEq

/-- Statistics for a proxy (`ProxyStats` dataclass in proxy_pool.py).
Timestamps are rational epoch seconds; `window_size` is the constant 100
baked into `pushWindow`. -/
structure ProxyStats where
  total_requests : ℕ := 0
  successful_requests : ℕ := 0
  failed_requests : ℕ := 0
  total_response_time : ℚ := 0
  last_success : Option ℚ := none
  last_failure : Option ℚ := none
  consecutive_failures : ℕ := 0
  is_banned : Bool := false
  ban_until : Option ℚ := none
  response_times : List ℚ := []
  success_window : List ℚ := []
  failure_types : FailureTypes := {}
  twitter_metrics : Option TwitterMetrics := none
deriving DecidableEq

/-- Success rate from the sliding window: 0.0 on an empty window, else the
mean of the 0/1 entries. -/
def ProxyStats.success_rate (s : ProxyStats) : ℚ :=
  if s.success_window = [] then 0
  else s.success_window.sum / s.success_window.length

/-- Windowed average response time; `none` models the source's
`float('inf')` returned for an empty window. -/
def ProxyStats.avgResponseTime (s : ProxyStats) : Option ℚ :=
  if s.response_times = [] then none
  else some (s.response_times.sum / s.response_times.length)

/-- Comparison `average_response_time <= b`; false when the average is
infinite (empty window). -/
def ProxyStats.avgLe (s : ProxyStats) (b : ℚ) : Bool :=
  match s.avgResponseTime with
  | none => false
  | some a => decide (a ≤ b)

/-- Comparison `average_response_time > b`; true when the average is
infinite (empty window). -/
def ProxyStats.avgGt (s : ProxyStats) (b : ℚ) : Bool :=
  match s.avgResponseTime with
  | none => true
  | some a => decide (b < a)

/-- Response-time term `max(0, 1 - avg_time / 5.0)` of the health score; an
infinite average yields 0. -/
def ProxyStats.responseScore (s : ProxyStats) : ℚ :=
  match s.avgResponseTime with
  | none => 0
  | some a => max 0 (1 - a / 5)

/-- Health score of `ProxyStats.calculate_health_score`: 0.0 with no
requests, else success rate (90%) blended with the response-time term
(10%), with the three bonus-multiplier branches each clamped by `min 1`. -/
def ProxyStats.calculate_health_score (s : ProxyStats) : ℚ :=
  if s.total_requests = 0 then 0
  else
    let success_score := s.success_rate
    let response_score := s.responseScore
    let base_score := success_score * (9/10) + response_score * (1/10)
    if success_score ≥ 95/100 ∧ s.avgLe (1/2) = true then
      min 1 (base_score * (13/10))
    else if success_score ≥ 7/10 ∧ success_score < 8/10 ∧ s.avgLe 3 = true then
      min 1 (base_score * (11/10))
    else if success_score ≥ 1/2 ∧ success_score < 6/10 ∧ s.avgLe 3 = true then
      min 1 (base_score * (21/20))
    else base_score

/-- Statistics update of `ProxyStats.update`: bumps the totals and the
sliding windows; a success resets `consecutive_failures` and records the
response time when one is given, a failure increments
`consecutive_failures` and the failure-type counter. `now` stands for the
`datetime.now()` calls. -/
def ProxyStats.update (s : ProxyStats) (now : ℚ) (success : Bool)
    (response_time : Option ℚ) (failure_type : Option String) : ProxyStats :=
  let s := { s with
    total_requests := s.total_requests + 1,
    success_window := pushWindow s.success_window (if success then 1 else 0) }
  if success then
    let s := { s with
      successful_requests := s.successful_requests + 1,
      consecutive_failures := 0,
      last_success := some now }
    match response_time with
    | some t => { s with
        total_response_time := s.total_response_time + t,
        response_times := pushWindow s.response_times t }
    | none => s
  else
    { s with
      failed_requests := s.failed_requests + 1,
      consecutive_failures := s.consecutive_failures + 1,
      last_failure := some now,
      failure_types := bumpFailureType s.failure_types failure_type }

/-- Ban predicate `ProxyStats.should_ban`: consecutive failures at the
threshold, or windowed success rate below 0.1 with at least 20 samples, or
windowed average response time above 8.0s with at least 10 samples. -/
def ProxyStats.should_ban (max_consecutive_failures : ℕ) (s : ProxyStats) : Bool :=
  if s.consecutive_failures ≥ max_consecutive_failures then true
  else if 20 ≤ s.success_window.length ∧ s.success_rate < 1/10 then true
  else if 10 ≤ s.response_times.length ∧ s.avgGt 8 = true then true
  else false

/-- Configured ban threshold `PROXY_CONFIG['validation']['max_consecutive_failures']`
from crypto_monitor/utils/config.py. -/
def PROXY_CONFIG_max_consecutive_failures : ℕ := 3

/-- Configured `PROXY_CONFIG['validation']['ban_duration']` in seconds. -/
def PROXY_CONFIG_ban_duration : ℚ := 1800

/-- Load levels of `PROXY_CONFIG['load_levels']`. -/
inductive LoadLevel
  | light
  | medium
  | heavy
deriving DecidableEq

/-- Per-load-level `min_health_score` from `PROXY_CONFIG['load_levels']`. -/
def min_health_score : LoadLevel → ℚ
  | .light => 8/10
  | .medium => 7/10
  | .heavy => 6/10

/-- State of `ProxyPool`: the relay registry (ids, in insertion order), the
per-relay statistics, and the ban map `proxy_id -> ban_until` timestamp.
The `proxy_info` payloads (server strings) do not influence selection and
are elided; a returned relay is identified by its id. -/
structure PoolState where
  proxies : List String := []
  proxy_stats : List (String × ProxyStats) := []
  banned_proxies : List (String × ℚ) := []
deriving DecidableEq

/-- Stats lookup; a missing relay gets a fresh `ProxyStats()`, as
`update_proxy_status` installs one on first contact. -/
def statsOf (st : PoolState) (pid : String) : ProxyStats :=
  (lookupA pid st.proxy_stats).getD {}

/-- Comprehensive score of `ProxyPool.calculate_proxy_score`: 40% base
health score plus 60% Twitter score, where the Twitter score is 1.0 on a
successful validation, scaled by 0.8 when its response time exceeded 0.5s
and by 1.2 when the proxy is anonymous; the blend is clamped by `min 1`. -/
def calculate_proxy_score (st : PoolState) (pid : String) : ℚ :=
  let stats := statsOf st pid
  let base_score := stats.calculate_health_score
  let twitter_score : ℚ :=
    match stats.twitter_metrics with
    | none => 0
    | some m =>
      if m.success then
        (if m.response_time > 1/2 then (1 : ℚ) * (4/5) else 1) *
          (if m.anonymous then 6/5 else 1)
      else 0
  min 1 (base_score * (2/5) + twitter_score * (3/5))

/-- Ban check of the `get_proxy` loop: the relay has a `banned_proxies`
entry whose expiry lies in the future. -/
def banActive (now : ℚ) (banned : List (String × ℚ)) (pid : String) : Bool :=
  match lookupA pid banned with
  | some t => decide (now < t)
  | none => false

/-- Eligible relays with their scores — the accumulation loop of
`ProxyPool.get_proxy`: skip relays with an active ban, keep those whose
score reaches the load level's `min_health_score`. -/
def availableProxies (now : ℚ) (lvl : LoadLevel) (st : PoolState) : List (String × ℚ) :=
  st.proxies.filterMap (fun pid =>
    if banActive now st.banned_proxies pid then none
    else if min_health_score lvl ≤ calculate_proxy_score st pid then
      some (pid, calculate_proxy_score st pid)
    else none)

/-- Selection of `ProxyPool.get_proxy`: the best-scoring eligible relay;
when none qualifies, the fallback takes the best-scoring relay over the
whole registry (`self.proxies`), with no ban check; `none` only on an
empty registry. The deletion of expired ban entries during the scan only
prunes state and does not affect which relay is returned, so the model
returns the selected relay id. -/
def get_proxy (now : ℚ) (lvl : LoadLevel) (st : PoolState) : Option String :=
  match pickBest (fun x => x.2) (availableProxies now lvl st) with
  | some best => some best.1
  | none => pickBest (calculate_proxy_score st) st.proxies

/-- Admission of `ProxyPool.add_proxy`: registers the id and installs fresh
`ProxyStats()`. -/
def add_proxy (pid : String) (st : PoolState) : PoolState :=
  { st with
    proxies := if pid ∈ st.proxies then st.proxies else st.proxies ++ [pid],
    proxy_stats := setEntry pid {} st.proxy_stats }

/-- Outcome reporting of `ProxyPool.update_proxy_status`: installs stats on
demand, applies `ProxyStats.update`, then on failure increments
`consecutive_failures` once more and bans at the configured threshold
with `ban_until = now + ban_duration`; on success zeroes the counter and
lifts any ban. -/
def update_proxy_status (max_consecutive_failures : ℕ) (ban_duration : ℚ)
    (now : ℚ) (pid : String) (success : Bool) (response_time : ℚ)
    (failure_type : Option String) (st : PoolState) : PoolState :=
  let stats := (statsOf st pid).update now success (some response_time) failure_type
  if success then
    { st with
      proxy_stats := setEntry pid { stats with consecutive_failures := 0 } st.proxy_stats,
      banned_proxies := removeKey pid st.banned_proxies }
  else
    let stats := { stats with consecutive_failures := stats.consecutive_failures + 1 }
    let banned :=
      if max_consecutive_failures ≤ stats.consecutive_failures then
        setEntry pid (now + ban_duration) st.banned_proxies
      else st.banned_proxies
    { st with proxy_stats := setEntry pid stats st.proxy_stats, banned_proxies := banned }

/-- Insertion into a sorted list, ascending. -/
def insertSorted (x : ℚ) : List ℚ → List ℚ
  | [] => [x]
  | y :: ys => if x ≤ y then x :: y :: ys else y :: insertSorted x ys

/-- Ascending sort, modelling Python `list.sort()`. -/
def sortAsc (l : List ℚ) : List ℚ := l.foldr insertSorted []

/-- Result dict of `_get_response_time_percentiles`. -/
structure Percentiles where
  p50 : ℚ
  p75 : ℚ
  p90 : ℚ
  p95 : ℚ
  p99 : ℚ
deriving DecidableEq

/-- Python `round(x, 3)`: round half to even at the third decimal (exact on
rationals; Python applies it to binary floats, which agrees whenever
`x * 1000` is an integer, as in every instance evaluated below). -/
def round3 (x : ℚ) : ℚ :=
  let q := x * 1000
  let f : ℤ := ⌊q⌋
  let r := q - (f : ℚ)
  let n : ℤ :=
    if r < 1/2 then f
    else if (1 : ℚ)/2 < r then f + 1
    else if f % 2 = 0 then f else f + 1
  (n : ℚ) / 1000

/-- Linear-interpolation percentile `get_percentile(p)` over the sorted
sample list `ts` of length `n`: index `k = (n-1)*p`, exact hit when the
floor and ceiling of `k` agree (Python `int(k)` equals the floor for the
nonnegative `k` arising here), else interpolate between neighbours. -/
def get_percentile (ts : List ℚ) (n : ℕ) (p : ℚ) : ℚ :=
  if n = 0 then 0
  else if n = 1 then ts.getD 0 0
  else
    let k : ℚ := ((n : ℚ) - 1) * p
    let f : ℤ := ⌊k⌋
    let c : ℤ := ⌈k⌉
    if f = c then ts.getD f.toNat 0
    else
      let d : ℚ := k - (f : ℚ)
      ts.getD f.toNat 0 * (1 - d) + ts.getD c.toNat 0 * d

/-- Percentile report of `ProxyPool._get_response_time_percentiles`: pools
every relay's windowed response times, sorts them, and reports the p50 as
the textbook median with p75..p99 via `get_percentile`, each rounded to
three decimals; all zeros when no samples exist. -/
def get_response_time_percentiles (st : PoolState) : Percentiles :=
  let all_times := (st.proxy_stats.map (fun e => e.2.response_times)).foldr (· ++ ·) []
  let all_times := sortAsc all_times
  if all_times = [] then ⟨0, 0, 0, 0, 0⟩
  else
    let n := all_times.length
    let p50 :=
      if n % 2 = 1 then all_times.getD (n / 2) 0
      else (all_times.getD (n / 2 - 1) 0 + all_times.getD (n / 2) 0) / 2
    { p50 := round3 p50,
      p75 := round3 (get_percentile all_times n (3/4)),
      p90 := round3 (get_percentile all_times n (9/10)),
      p95 := round3 (get_percentile all_times n (19/20)),
      p99 := round3 (get_percentile all_times n (99/100)) }

/-- Score record of `ProxyScore` in proxy_manager.py (the warm-start cache
persists the first five fields). -/
structure ProxyScore where
  success_count : ℕ := 0
  fail_count : ℕ := 0
  avg_response_time : ℚ := 0
  last_success : Option ℚ := none
  last_used : Option ℚ := none
  consecutive_failures : ℕ := 0
  total_uptime : ℚ := 0
  location_score : ℚ := 1
  stability_score : ℚ := 1
deriving DecidableEq

/-- Lifetime success rate of `ProxyScore.success_rate`. -/
def ProxyScore.success_rate (s : ProxyScore) : ℚ :=
  let total := s.success_count + s.fail_count
  if total = 0 then 0 else (s.success_count : ℚ) / (total : ℚ)

/-- Composite score of `ProxyScore.score`: success rate (25%), response
time (20%), recency of last success (15%), stability (25%) and location
(15%), with a consecutive-failure penalty floored at 0.1, clamped to
[0,1]. -/
def ProxyScore.score (now : ℚ) (s : ProxyScore) : ℚ :=
  let success_score := s.success_rate
  let response_score :=
    if 0 < s.avg_response_time then max 0 (1 - s.avg_response_time / 5) else 1
  let recency_score :=
    match s.last_success with
    | none => 0
    | some t => max 0 (1 - ((now - t) / 3600) / 24)
  let final_score :=
    success_score * (1/4) + response_score * (1/5) + recency_score * (3/20) +
      s.stability_score * (1/4) + s.location_score * (3/20)
  let final_score :=
    if 0 < s.consecutive_failures then
      final_score * max (1/10) (1 - (s.consecutive_failures : ℚ) * (3/10))
    else final_score
  max 0 (min 1 final_score)

/-- Per-proxy rotation counters of `ProxyManager.rotation_stats`. -/
structure RotationStat where
  total_uses : ℕ := 0
  last_hour_uses : ℕ := 0
  current_uses : ℤ := 0
deriving DecidableEq

/-- State of `ProxyManager`: registry `proxy_url -> country_code`
(the only proxy-config field selection reads), scores, concurrent-use
counters, last-rotation timestamps and rotation statistics. -/
structure ManagerState where
  proxies : List (String × Option String) := []
  scores : List (String × ProxyScore) := []
  concurrent_uses : List (String × ℤ) := []
  last_rotation : List (String × ℚ) := []
  rotation_stats : List (String × RotationStat) := []
deriving DecidableEq

/-- Hardcoded `self.max_concurrent_per_proxy = 5`. -/
def max_concurrent_per_proxy : ℤ := 5

/-- Hardcoded `self.min_rotation_interval = 60` seconds. -/
def min_rotation_interval : ℚ := 60

/-- Concurrent-use counter `self.concurrent_uses.get(url, 0)`. -/
def usesOf (st : ManagerState) (url : String) : ℤ :=
  (lookupA url st.concurrent_uses).getD 0

/-- Score lookup `self.scores.get(url, ProxyScore())`. -/
def scoreOf (st : ManagerState) (url : String) : ProxyScore :=
  (lookupA url st.scores).getD {}

/-- Aggregate `sum(self.concurrent_uses.values())`. -/
def totalConcurrent (st : ManagerState) : ℤ :=
  (st.concurrent_uses.map Prod.snd).sum

/-- Rotation weight of `_calculate_rotation_weight`: 40% score, 30%
inverse concurrency, 30% idle time against five rotation intervals with
maximum weight for a never-used proxy. -/
def calculate_rotation_weight (now : ℚ) (st : ManagerState) (url : String) : ℚ :=
  let weight := (scoreOf st url).score now * (2/5)
  let current_uses := usesOf st url
  let concurrent_weight := max 0 (1 - (current_uses : ℚ) / (max_concurrent_per_proxy : ℚ))
  let weight := weight + concurrent_weight * (3/10)
  let time_weight :=
    match lookupA url st.last_rotation with
    | some t => min 1 ((now - t) / (min_rotation_interval * 5))
    | none => 1
  weight + time_weight * (3/10)

/-- Bookkeeping of `_update_rotation_stats` after a selection: bumps
`total_uses`, mirrors the (already incremented) concurrent-use count,
stamps `last_rotation`, bumps `last_hour_uses` (the guard re-reads the
entry just stamped with `now`, so it always passes), and zeroes
`current_uses` of proxies without a concurrent-use record. -/
def update_rotation_stats (now : ℚ) (url : String) (st : ManagerState) : ManagerState :=
  let r := (lookupA url st.rotation_stats).getD {}
  let r := { r with
    total_uses := r.total_uses + 1,
    current_uses := usesOf st url,
    last_hour_uses := r.last_hour_uses + 1 }
  let stats1 := setEntry url r st.rotation_stats
  let stats2 := stats1.map (fun e =>
    if lookupA e.1 st.concurrent_uses = none then (e.1, { e.2 with current_uses := 0 }) else e)
  { st with rotation_stats := stats2, last_rotation := setEntry url now st.last_rotation }

/-- Increment step of `get_proxy`: `concurrent_uses[url]` is created at 0
when absent, then incremented. -/
def incUses (url : String) (st : ManagerState) : ManagerState :=
  { st with concurrent_uses := setEntry url (usesOf st url + 1) st.concurrent_uses }

/-- Country guard of `ProxyManager.get_proxy`: with no requested country
every proxy passes; with one, the proxy's country must match. -/
def countryOk (country_code pdc : Option String) : Bool :=
  match country_code with
  | some c => decide (pdc = some c)
  | none => true

/-- Candidate list of `ProxyManager.get_proxy`: proxies whose score meets
`min_score`, whose concurrent-use count is under the per-proxy cap and
which pass the country guard, paired with their rotation weight (the
source applies the same three conditions sequentially). -/
def mgr_available (now min_score : ℚ) (country_code : Option String)
    (st : ManagerState) : List (String × ℚ) :=
  st.proxies.filterMap (fun pd =>
    if min_score ≤ (scoreOf st pd.1).score now ∧ usesOf st pd.1 < max_concurrent_per_proxy
        ∧ countryOk country_code pd.2 = true then
      some (pd.1, calculate_rotation_weight now st pd.1)
    else none)

/-- Checkout of `ProxyManager.get_proxy`: `None` on an empty registry or
once the aggregate concurrent use reaches `max_concurrent`; otherwise the
highest-weight candidate (descending stable sort, first element) gets its
concurrent-use count incremented and its rotation stats updated. The
throttled background refresh (`_update_if_needed`) performs network I/O
and never touches the concurrency counters, so it is elided. -/
def mgr_get_proxy (now min_score : ℚ) (max_concurrent : ℤ) (country_code : Option String)
    (st : ManagerState) : Option String × ManagerState :=
  if st.proxies = [] then (none, st)
  else if max_concurrent ≤ totalConcurrent st then (none, st)
  else
    match pickBest (fun x => x.2) (mgr_available now min_score country_code st) with
    | none => (none, st)
    | some sel =>
      let st1 := incUses sel.1 st
      let st2 := update_rotation_stats now sel.1 st1
      (some sel.1, st2)

/-- Sweep of `cleanup_unused_stats`: drops rotation stats of proxies no
longer registered, zeroes `current_uses` of proxies without a
concurrent-use record, and drops concurrent-use records of unregistered
proxies. -/
def cleanup_unused_stats (st : ManagerState) : ManagerState :=
  let proxyKeys := st.proxies.map Prod.fst
  let rotation1 := st.rotation_stats.filterMap (fun e =>
    if e.1 ∈ proxyKeys then
      if lookupA e.1 st.concurrent_uses = none then some (e.1, { e.2 with current_uses := 0 })
      else some e
    else none)
  let concurrent1 := st.concurrent_uses.filter (fun e => e.1 ∈ proxyKeys)
  { st with rotation_stats := rotation1, concurrent_uses := concurrent1 }

/-- Release of `ProxyManager.release_proxy`: with no resolvable proxy URL
it is a pure no-op; otherwise the proxy's concurrent-use record is
deleted outright, its rotation stat is zeroed, and the unused-stats sweep
runs. -/
def release_proxy (proxy_url : Option String) (st : ManagerState) : ManagerState :=
  match proxy_url with
  | none => st
  | some url =>
    let st1 := { st with concurrent_uses := removeKey url st.concurrent_uses }
    let rotation1 :=
      match lookupA url st1.rotation_stats with
      | some r => setEntry url { r with current_uses := 0 } st1.rotation_stats
      | none => st1.rotation_stats
    cleanup_unused_stats { st1 with rotation_stats := rotation1 }

/-- Persisted record of the score cache: exactly the five fields
`_save_cache` serializes per proxy. `isoformat`/`fromisoformat` invert
each other exactly at microsecond resolution, so timestamps are carried
unchanged. -/
structure CacheRecord where
  success_count : ℕ
  fail_count : ℕ
  avg_response_time : ℚ
  last_success : Option ℚ
  last_used : Option ℚ
deriving DecidableEq

/-- Serialization of one score by `_save_cache`. -/
def saveScore (s : ProxyScore) : CacheRecord :=
  { success_count := s.success_count,
    fail_count := s.fail_count,
    avg_response_time := s.avg_response_time,
    last_success := s.last_success,
    last_used := s.last_used }

/-- Reconstruction of one score by `_load_cache`: a fresh `ProxyScore()`
with the five persisted fields set. -/
def loadScore (r : CacheRecord) : ProxyScore :=
  { success_count := r.success_count,
    fail_count := r.fail_count,
    avg_response_time := r.avg_response_time,
    last_success := r.last_success,
    last_used := r.last_used }

/-- Cache serialization of `_save_cache` over the whole score map. -/
def save_cache (scores : List (String × ProxyScore)) : List (String × CacheRecord) :=
  scores.map (fun e => (e.1, saveScore e.2))

/-- Cache load of `_load_cache` over the persisted document. -/
def load_cache (data : List (String × CacheRecord)) : List (String × ProxyScore) :=
  data.map (fun e => (e.1, loadScore e.2))

/-- Source record of the `ProxySource` dataclass (the fields consulted by
fetch throttling, statistics and cleanup). -/
structure ProxySource where
  name : String
  active : Bool := true
  last_fetch : Option ℚ := none
  fetch_interval : ℚ := 3600
  success_rate : ℚ := 1
deriving DecidableEq

/-- State of `ProxySourceManager`: the source registry and the last
cleanup timestamp. -/
structure SourceManagerState where
  sources : List (String × ProxySource) := []
  last_cleanup : Option ℚ := none
deriving DecidableEq

/-- Hardcoded `self.cleanup_interval = 3600` seconds. -/
def cleanup_interval : ℚ := 3600

/-- Throttle guard of `fetch_proxies`: skip when the previous fetch is
younger than the source's fetch interval. -/
def fetchThrottled (now : ℚ) (src : ProxySource) : Bool :=
  match src.last_fetch with
  | some t => decide (now - t < src.fetch_interval)
  | none => false

/-- State effect of `fetch_proxies` on its source: nothing when throttled
or when the HTTP request fails; on an HTTP 200 response `last_fetch` is
stamped with now. The parsed candidate list — and how many of those later
validate — never touches the source record in this function. -/
def fetch_proxies_step (now : ℚ) (httpOk : Bool) (src : ProxySource) : ProxySource :=
  if fetchThrottled now src then src
  else if httpOk then { src with last_fetch := some now }
  else src

/-- EMA fold of `update_source_stats` (smoothing factor 0.3); it adjusts
only the source's `success_rate`, never `active` or `last_fetch`. -/
def update_source_stats (src : ProxySource) (valid_count total_count : ℕ) : ProxySource :=
  if total_count = 0 then src
  else { src with success_rate :=
    (3/10) * ((valid_count : ℚ) / (total_count : ℚ)) + (7/10) * src.success_rate }

/-- One fetch cycle as driven by `get_validated_proxies`: fetch, then fold
the batch's validation ratio into the source's EMA success rate. -/
def fetch_cycle (now : ℚ) (httpOk : Bool) (valid_count total_count : ℕ)
    (src : ProxySource) : ProxySource :=
  update_source_stats (fetch_proxies_step now httpOk src) valid_count total_count

/-- Throttle guard of `cleanup_sources`: skip when the previous cleanup is
younger than the cleanup interval. -/
def cleanupThrottled (now : ℚ) (last_cleanup : Option ℚ) : Bool :=
  match last_cleanup with
  | some t => decide (now - t < cleanup_interval)
  | none => false

/-- Staleness test of `cleanup_sources`: a recorded last fetch older than
three times the source's fetch interval. -/
def staleSource (now : ℚ) (src : ProxySource) : Bool :=
  match src.last_fetch with
  | some t => decide (src.fetch_interval * 3 < now - t)
  | none => false

/-- Deactivation step of `cleanup_sources`: a stale source has its
`active` flag cleared, any other source is left unchanged. -/
def deactivateIfStale (now : ℚ) (s : ProxySource) : ProxySource :=
  if staleSource now s then { s with active := false } else s

/-- Cleanup of `ProxySourceManager.cleanup_sources`: when not throttled,
deactivates (does not delete) every source whose last fetch is stale, and
stamps `last_cleanup`. -/
def cleanup_sources (now : ℚ) (st : SourceManagerState) : SourceManagerState :=
  if cleanupThrottled now st.last_cleanup then st
  else
    { sources := st.sources.map (fun e => (e.1, deactivateIfStale now e.2)),
      last_cleanup := some now }

/-- Helper: a `pickBest` result is an element of the list. -/
theorem pickBest_mem {α : Type} (f : α → ℚ) (l : List α) (y : α)
    (h : pickBest f l = some y) : y ∈ l := by
  induction l with
  | nil => simp [pickBest] at h
  | cons x xs ih =>
    rw [pickBest] at h
    split at h
    · cases h
      exact List.mem_cons_self _ _
    · rename_i y2 heq
      split at h
      · cases h
        exact List.mem_cons_of_mem _ (ih heq)
      · cases h
        exact List.mem_cons_self _ _

/-- Helper: `pickBest` is `none` exactly on the empty list. -/
theorem pickBest_eq_none {α : Type} (f : α → ℚ) (l : List α) :
    pickBest f l = none ↔ l = [] := by
  cases l with
  | nil => simp [pickBest]
  | cons x xs =>
    simp only [pickBest]
    split
    · simp
    · split <;> simp

/-- Helper: a successful `lookupA` exhibits a list entry. -/
theorem lookupA_mem {α : Type} {k : String} {l : List (String × α)} {v : α}
    (h : lookupA k l = some v) : (k, v) ∈ l := by
  induction l with
  | nil => simp [lookupA] at h
  | cons e rest ih =>
    obtain ⟨k', v'⟩ := e
    rw [lookupA] at h
    by_cases hk : k' = k
    · rw [if_pos hk] at h
      cases h
      subst hk
      exact List.mem_cons_self _ _
    · rw [if_neg hk] at h
      exact List.mem_cons_of_mem _ (ih h)

/-- Helper: `lookupA` misses when no entry carries the key. -/
theorem lookupA_eq_none {α : Type} {k : String} {l : List (String × α)}
    (h : ∀ e ∈ l, e.1 ≠ k) : lookupA k l = none := by
  induction l with
  | nil => rfl
  | cons e rest ih =>
    obtain ⟨k', v'⟩ := e
    rw [lookupA, if_neg (h (k', v') (List.mem_cons_self _ _))]
    exact ih (fun e he => h e (List.mem_cons_of_mem _ he))

/-- Helper: every entry of `setEntry k v l` is the new pair or an old entry. -/
theorem mem_setEntry {α : Type} {k : String} {v : α} {l : List (String × α)}
    {e : String × α} (h : e ∈ setEntry k v l) : e = (k, v) ∨ e ∈ l := by
  induction l with
  | nil =>
    rw [setEntry] at h
    cases h with
    | head => exact Or.inl rfl
    | tail _ h2 => cases h2
  | cons p rest ih =>
    obtain ⟨k', v'⟩ := p
    rw [setEntry] at h
    by_cases hk : k' = k
    · rw [if_pos hk] at h
      cases h with
      | head => exact Or.inl rfl
      | tail _ h2 => exact Or.inr (List.mem_cons_of_mem _ h2)
    · rw [if_neg hk] at h
      cases h with
      | head => exact Or.inr (List.mem_cons_self _ _)
      | tail _ h2 =>
        cases ih h2 with
        | inl h3 => exact Or.inl h3
        | inr h3 => exact Or.inr (List.mem_cons_of_mem _ h3)

/-- Helper: incrementing one dict value raises the value sum by one. -/
theorem sum_setEntry_inc (k : String) (l : List (String × ℤ)) :
    ((setEntry k ((lookupA k l).getD 0 + 1) l).map Prod.snd).sum
      = (l.map Prod.snd).sum + 1 := by
  induction l with
  | nil => simp [setEntry, lookupA]
  | cons p rest ih =>
    obtain ⟨k', v'⟩ := p
    by_cases hk : k' = k
    · simp only [setEntry, lookupA, if_pos hk, List.map_cons, List.sum_cons,
        Option.getD_some]
      ring
    · simp only [setEntry, lookupA, if_neg hk, List.map_cons, List.sum_cons, ih]
      ring

/-- Helper: `lookupA` commutes with a value-only map. -/
theorem lookupA_map_val {α β : Type} (g : α → β) (k : String) (l : List (String × α)) :
    lookupA k (l.map (fun e => (e.1, g e.2))) = (lookupA k l).map g := by
  induction l with
  | nil => rfl
  | cons p rest ih =>
    obtain ⟨k', v'⟩ := p
    by_cases hk : k' = k
    · simp [lookupA, if_pos hk]
    · simp only [List.map_cons, lookupA, if_neg hk]
      exact ih

/-- Fresh single-relay pool used in concrete evaluations. -/
def freshPool : PoolState := { proxies := ["p"], proxy_stats := [("p", {})] }

/-- One failing report on relay "p" at time `now` with threshold `maxFail`
(response time 1s, no failure type), at the configured ban duration. -/
def failReport (maxFail : ℕ) (now : ℚ) (st : PoolState) : PoolState :=
  update_proxy_status maxFail PROXY_CONFIG_ban_duration now "p" false 1 none st

/-- C1: starting from zero consecutive failures with the spec's default
threshold 5, the relay is already banned on the 3rd consecutive failing
report (with ban_until = now + ban_duration) and its counter reads 6, not
on the 5th as claimed: `update_proxy_status` increments
`consecutive_failures` a second time after `ProxyStats.update` already
has. With the repository's configured threshold 3 the ban even fires on
the 2nd failing report. -/
theorem spec_C1_ban_fires_early :
    lookupA "p" ((failReport 5 2 (failReport 5 1 (failReport 5 0 freshPool))).banned_proxies)
        = some (2 + PROXY_CONFIG_ban_duration) ∧
    lookupA "p" ((failReport 5 1 (failReport 5 0 freshPool)).banned_proxies) = none ∧
    (statsOf (failReport 5 2 (failReport 5 1 (failReport 5 0 freshPool))) "p").consecutive_failures = 6 ∧
    lookupA "p" ((failReport PROXY_CONFIG_max_consecutive_failures 1
        (failReport PROXY_CONFIG_max_consecutive_failures 0 freshPool)).banned_proxies)
        = some (1 + PROXY_CONFIG_ban_duration) := by
  norm_num [failReport, freshPool, update_proxy_status, statsOf, ProxyStats.update,
    pushWindow, lookupA, setEntry, removeKey, bumpFailureType,
    PROXY_CONFIG_ban_duration, PROXY_CONFIG_max_consecutive_failures]

/-- Ten successful reports at 10s response time each, then one failing
report at time 10, on relay "p" with threshold `maxFail`. -/
def slowRelayRun (maxFail : ℕ) : PoolState :=
  update_proxy_status maxFail PROXY_CONFIG_ban_duration 10 "p" false 1 none
    ((List.range 10).foldl
      (fun st i => update_proxy_status maxFail PROXY_CONFIG_ban_duration (i : ℚ) "p" true 10 none st)
      freshPool)

/-- C4 counterexample: after ten successes of 10s each and one failing
report, the relay's stats satisfy `should_ban` (ten samples with windowed
average response time 10 > 8) under both the repository threshold 3 and
the spec default 5, yet the failing report left it unbanned — the
success-rate and response-time ban criteria are never consulted by
`update_proxy_status`. -/
theorem spec_C4_should_ban_ignored :
    ProxyStats.should_ban PROXY_CONFIG_max_consecutive_failures
        (statsOf (slowRelayRun PROXY_CONFIG_max_consecutive_failures) "p") = true ∧
    ProxyStats.should_ban 5 (statsOf (slowRelayRun 5) "p") = true ∧
    lookupA "p" (slowRelayRun PROXY_CONFIG_max_consecutive_failures).banned_proxies = none ∧
    lookupA "p" (slowRelayRun 5).banned_proxies = none := by
  norm_num [slowRelayRun, freshPool, update_proxy_status, statsOf, ProxyStats.update,
    ProxyStats.should_ban, ProxyStats.success_rate, ProxyStats.avgResponseTime,
    ProxyStats.avgGt, pushWindow, lookupA, setEntry, removeKey, bumpFailureType,
    List.range_succ, List.cons_ne_nil,
    PROXY_CONFIG_ban_duration, PROXY_CONFIG_max_consecutive_failures]

/-- C4 amended: a failing report changes the ban map only through the
consecutive-failure rule — the relay is banned with
`ban_until = now + ban_duration` exactly when the twice-incremented
counter reaches the threshold, and otherwise the ban map is untouched;
the windowed success-rate and response-time criteria of
`ProxyStats.should_ban` never trigger a ban here. -/
theorem spec_C4_failure_ban_rule (maxFail : ℕ) (dur now rt : ℚ) (pid : String)
    (ft : Option String) (st : PoolState) :
    (update_proxy_status maxFail dur now pid false rt ft st).banned_proxies =
      (if maxFail ≤ ((statsOf st pid).update now false (some rt) ft).consecutive_failures + 1 then
        setEntry pid (now + dur) st.banned_proxies
      else st.banned_proxies) := by
  simp only [update_proxy_status, Bool.false_eq_true, if_false]

/-- Helper: a member of the eligible list is not ban-active, meets the load
level's floor, and carries its own score. -/
theorem mem_availableProxies {now : ℚ} {lvl : LoadLevel} {st : PoolState}
    {x : String × ℚ} (h : x ∈ availableProxies now lvl st) :
    banActive now st.banned_proxies x.1 = false ∧
    min_health_score lvl ≤ calculate_proxy_score st x.1 ∧
    x.2 = calculate_proxy_score st x.1 := by
  rw [availableProxies, List.mem_filterMap] at h
  obtain ⟨pid, hpid, hf⟩ := h
  split at hf
  · cases hf
  · rename_i hb
    split at hf
    · rename_i hs
      cases hf
      exact ⟨Bool.eq_false_iff.mpr hb, hs, rfl⟩
    · cases hf

/-- C2 amended: on the normal selection path — whenever at least one relay
meets the load level's floor — `get_proxy` never returns a relay whose
ban is still active; the fallback path taken when no relay qualifies
ignores ban state and can return a ban-active relay. -/
theorem spec_C2_normal_path_excludes_banned (now : ℚ) (lvl : LoadLevel) (st : PoolState)
    (r : String) (hne : availableProxies now lvl st ≠ [])
    (hr : get_proxy now lvl st = some r) :
    banActive now st.banned_proxies r = false := by
  rw [get_proxy] at hr
  split at hr
  · rename_i best heq
    cases hr
    exact (mem_availableProxies (pickBest_mem _ _ _ heq)).1
  · rename_i heq
    exact absurd ((pickBest_eq_none _ _).mp heq) hne

/-- Pool whose only relay is banned until t = 100. -/
def bannedOnlyPool : PoolState :=
  { proxies := ["p"], proxy_stats := [("p", {})], banned_proxies := [("p", 100)] }

/-- C2 counterexample: at t = 50 the only relay's ban is still active, yet
`get_proxy` returns it — the no-threshold fallback ranks all registered
relays without a ban check. -/
theorem spec_C2_fallback_returns_banned :
    get_proxy 50 LoadLevel.light bannedOnlyPool = some "p" ∧
    banActive 50 bannedOnlyPool.banned_proxies "p" = true := by
  norm_num [get_proxy, availableProxies, bannedOnlyPool, banActive, lookupA, pickBest,
    List.filterMap_cons, List.filterMap_nil,
    calculate_proxy_score, statsOf, ProxyStats.calculate_health_score]

/-- Healthy single-relay pool: perfect windowed stats and a successful
anonymous Twitter probe yield the maximal score 1. -/
def healthyPool : PoolState :=
  { proxies := ["q"],
    proxy_stats := [("q",
      { total_requests := 1, successful_requests := 1,
        response_times := [1/5], success_window := [1],
        twitter_metrics := some { success := true, response_time := 3/10, anonymous := true } })] }

/-- Witness for the C2 theorem at a concrete eligible pool. -/
theorem spec_C2_witness : banActive 0 healthyPool.banned_proxies "q" = false :=
  spec_C2_normal_path_excludes_banned 0 LoadLevel.light healthyPool "q"
    (by norm_num [availableProxies, healthyPool, banActive, lookupA,
      List.filterMap_cons, List.filterMap_nil,
      calculate_proxy_score, statsOf, ProxyStats.calculate_health_score,
      ProxyStats.success_rate, ProxyStats.avgResponseTime, ProxyStats.avgLe,
      ProxyStats.responseScore, min_health_score, List.cons_ne_nil, min_def, max_def])
    (by norm_num [get_proxy, availableProxies, healthyPool, banActive, lookupA, pickBest,
      List.filterMap_cons, List.filterMap_nil,
      calculate_proxy_score, statsOf, ProxyStats.calculate_health_score,
      ProxyStats.success_rate, ProxyStats.avgResponseTime, ProxyStats.avgLe,
      ProxyStats.responseScore, min_health_score, List.cons_ne_nil, min_def, max_def])

/-- Helper: a freshly admitted relay — its stats are still the initial
`ProxyStats()` record — scores 0, strictly below every load level's
minimum health score. -/
theorem fresh_relay_score_lt_floor (st : PoolState) (pid : String)
    (hfresh : statsOf st pid = {}) (lvl : LoadLevel) :
    calculate_proxy_score st pid < min_health_score lvl := by
  rw [calculate_proxy_score, hfresh]
  cases lvl <;>
    norm_num [ProxyStats.calculate_health_score, min_health_score, min_def]

/-- C10: a relay with zero recorded requests has health score exactly 0; a
freshly admitted relay (the `ProxyStats()` record installed by
`add_proxy`) scores 0, strictly below every load level's minimum health
score, and whenever `get_proxy` returns such a relay the
threshold-filtered eligible list was empty — only the no-threshold
fallback path can return it. -/
theorem spec_C10_fresh_relay_only_via_fallback :
    (∀ s : ProxyStats, s.total_requests = 0 → s.calculate_health_score = 0) ∧
    (∀ st : PoolState, ∀ pid : String, statsOf st pid = {} →
      ∀ lvl : LoadLevel, calculate_proxy_score st pid < min_health_score lvl) ∧
    (∀ (now : ℚ) (lvl : LoadLevel) (st : PoolState) (pid : String),
      statsOf st pid = {} → get_proxy now lvl st = some pid →
      availableProxies now lvl st = []) := by
  refine ⟨?_, fresh_relay_score_lt_floor, ?_⟩
  · intro s hs
    rw [ProxyStats.calculate_health_score, if_pos hs]
  · intro now lvl st pid hfresh hr
    by_contra hne
    rw [get_proxy] at hr
    split at hr
    · rename_i best heq
      cases hr
      have hfloor := (mem_availableProxies (pickBest_mem _ _ _ heq)).2.1
      have hlt := fresh_relay_score_lt_floor st best.1 hfresh lvl
      exact absurd hfloor (not_le.mpr hlt)
    · rename_i heq
      exact hne ((pickBest_eq_none _ _).mp heq)

/-- Pool holding a single freshly admitted relay. -/
def freshOnlyPool : PoolState := add_proxy "f" {}

/-- Witness for the C10 theorem at a concrete fresh pool. -/
theorem spec_C10_witness :
    ({} : ProxyStats).calculate_health_score = 0 ∧
    calculate_proxy_score freshOnlyPool "f" < min_health_score LoadLevel.light ∧
    availableProxies 7 LoadLevel.light freshOnlyPool = [] :=
  ⟨spec_C10_fresh_relay_only_via_fallback.1 {} rfl,
   spec_C10_fresh_relay_only_via_fallback.2.1 freshOnlyPool "f"
     (by norm_num [freshOnlyPool, add_proxy, statsOf, lookupA, setEntry]) LoadLevel.light,
   spec_C10_fresh_relay_only_via_fallback.2.2 7 LoadLevel.light freshOnlyPool "f"
     (by norm_num [freshOnlyPool, add_proxy, statsOf, lookupA, setEntry])
     (by norm_num [freshOnlyPool, add_proxy, get_proxy, availableProxies, banActive,
       lookupA, setEntry, pickBest, List.filterMap_cons, List.filterMap_nil,
       calculate_proxy_score, statsOf,
       ProxyStats.calculate_health_score, min_health_score, min_def])⟩

/-- Helper: an element of a pushed window is an old entry or the new value. -/
theorem mem_pushWindow {w : List ℚ} {x y : ℚ} (h : y ∈ pushWindow w x) :
    y ∈ w ∨ y = x := by
  rw [pushWindow] at h
  split at h
  · rcases List.mem_append.mp h with h2 | h2
    · exact Or.inl h2
    · exact Or.inr (List.mem_singleton.mp h2)
  · rcases List.mem_append.mp h with h2 | h2
    · exact Or.inl (List.drop_subset _ _ h2)
    · exact Or.inr (List.mem_singleton.mp h2)

/-- Well-formedness of the sliding windows: the success window holds only
0/1 entries and every recorded response time is nonnegative. -/
def StatsValid (s : ProxyStats) : Prop :=
  (∀ x ∈ s.success_window, x = 0 ∨ x = 1) ∧ (∀ t ∈ s.response_times, 0 ≤ t)

/-- Helper: with a well-formed window the success rate lies in [0,1]. -/
theorem success_rate_bounds (s : ProxyStats)
    (hw : ∀ x ∈ s.success_window, x = 0 ∨ x = 1) :
    0 ≤ s.success_rate ∧ s.success_rate ≤ 1 := by
  rw [ProxyStats.success_rate]
  split
  · norm_num
  · rename_i hne
    have hlen : 0 < (s.success_window.length : ℚ) := by
      exact_mod_cast List.length_pos.mpr hne
    constructor
    · apply div_nonneg _ (le_of_lt hlen)
      apply List.sum_nonneg
      intro x hx
      rcases hw x hx with h | h <;> simp [h]
    · rw [div_le_one hlen]
      calc s.success_window.sum ≤ s.success_window.length • (1 : ℚ) := by
            apply List.sum_le_card_nsmul
            intro x hx
            rcases hw x hx with h | h <;> simp [h]
        _ = s.success_window.length := by simp

/-- Helper: with nonnegative samples the response-time term lies in [0,1]. -/
theorem responseScore_bounds (s : ProxyStats)
    (hr : ∀ t ∈ s.response_times, 0 ≤ t) :
    0 ≤ s.responseScore ∧ s.responseScore ≤ 1 := by
  unfold ProxyStats.responseScore
  cases havg : s.avgResponseTime with
  | none => norm_num
  | some a =>
    have ha : 0 ≤ a := by
      rw [ProxyStats.avgResponseTime] at havg
      split at havg
      · cases havg
      · cases havg
        apply div_nonneg (List.sum_nonneg hr)
        positivity
    refine ⟨le_max_left _ _, ?_⟩
    apply max_le
    · norm_num
    · have h5 : 0 ≤ a / 5 := by positivity
      linarith

/-- Helper: a well-formed stats record has health score in [0,1]. -/
theorem health_score_bounds (s : ProxyStats) (hv : StatsValid s) :
    0 ≤ s.calculate_health_score ∧ s.calculate_health_score ≤ 1 := by
  have hs := success_rate_bounds s hv.1
  have hrs := responseScore_bounds s hv.2
  simp only [ProxyStats.calculate_health_score]
  split
  · norm_num
  · have hbase0 : 0 ≤ s.success_rate * (9/10) + s.responseScore * (1/10) := by
      nlinarith [hs.1, hrs.1]
    have hbase1 : s.success_rate * (9/10) + s.responseScore * (1/10) ≤ 1 := by
      nlinarith [hs.2, hrs.2]
    constructor
    · split_ifs <;>
        first
          | exact le_min (by norm_num) (by nlinarith)
          | nlinarith
    · split_ifs <;>
        first
          | exact min_le_left _ _
          | nlinarith

/-- Helper: the success window after an update is the pushed window. -/
theorem update_success_window (s : ProxyStats) (now : ℚ) (b : Bool)
    (rt : Option ℚ) (ft : Option String) :
    (s.update now b rt ft).success_window =
      pushWindow s.success_window (if b then 1 else 0) := by
  cases b <;> cases rt <;> rfl

/-- Helper: the response-time window changes only on a success that
carries a response time. -/
theorem update_response_times (s : ProxyStats) (now : ℚ) (b : Bool)
    (rt : Option ℚ) (ft : Option String) :
    (s.update now b rt ft).response_times =
      (match b, rt with
        | true, some t => pushWindow s.response_times t
        | _, _ => s.response_times) := by
  cases b <;> cases rt <;> rfl

/-- Helper: `ProxyStats.update` preserves window well-formedness when the
reported response time is nonnegative. -/
theorem statsValid_update (s : ProxyStats) (now : ℚ) (b : Bool) (rt : Option ℚ)
    (ft : Option String) (hs : StatsValid s)
    (hrt : ∀ t, rt = some t → 0 ≤ t) : StatsValid (s.update now b rt ft) := by
  obtain ⟨hw, hr⟩ := hs
  constructor
  · rw [update_success_window]
    intro x hx
    rcases mem_pushWindow hx with h | h
    · exact hw x h
    · cases b <;> simp at h <;> simp [h]
  · rw [update_response_times]
    cases b with
    | false => exact hr
    | true =>
      cases rt with
      | none => exact hr
      | some t0 =>
        intro t ht
        rcases mem_pushWindow ht with h | h
        · exact hr t h
        · rw [h]
          exact hrt t0 rfl

/-- One reported outcome: timestamp, success flag, optional response time
and failure kind, as fed to `ProxyStats.update` through
`update_proxy_status`. -/
structure Outcome where
  now : ℚ
  success : Bool
  response_time : Option ℚ
  failure_type : Option String

/-- Fold of a reportOutcome call sequence over one relay's statistics. -/
def applyOutcomes (s : ProxyStats) (ops : List Outcome) : ProxyStats :=
  ops.foldl (fun s o => s.update o.now o.success o.response_time o.failure_type) s

/-- Helper: window well-formedness is preserved along any outcome
sequence with nonnegative response times. -/
theorem statsValid_applyOutcomes (ops : List Outcome) (s : ProxyStats)
    (hs : StatsValid s)
    (h : ∀ o ∈ ops, ∀ t, o.response_time = some t → 0 ≤ t) :
    StatsValid (applyOutcomes s ops) := by
  induction ops generalizing s with
  | nil => exact hs
  | cons o rest ih =>
    rw [applyOutcomes, List.foldl_cons]
    exact ih _
      (statsValid_update _ _ _ _ _ hs (h o (List.mem_cons_self _ _)))
      (fun o2 ho2 => h o2 (List.mem_cons_of_mem _ ho2))

/-- C3: over any sequence of reported outcomes whose response times are
all nonnegative, starting from fresh statistics, the relay's computed
health score stays within [0,1] — including the bonus-multiplier
branches and the case of an empty response-time window. -/
theorem spec_C3_health_score_unit_interval (ops : List Outcome)
    (h : ∀ o ∈ ops, ∀ t, o.response_time = some t → 0 ≤ t) :
    0 ≤ (applyOutcomes {} ops).calculate_health_score ∧
    (applyOutcomes {} ops).calculate_health_score ≤ 1 :=
  health_score_bounds _
    (statsValid_applyOutcomes ops {}
      ⟨fun x hx => absurd hx (List.not_mem_nil x),
       fun t ht => absurd ht (List.not_mem_nil t)⟩ h)

/-- Witness for the C3 theorem at a concrete outcome sequence. -/
theorem spec_C3_witness :
    0 ≤ (applyOutcomes {} [⟨5, true, some 1, none⟩, ⟨6, false, some 2, some "timeout"⟩]).calculate_health_score ∧
    (applyOutcomes {} [⟨5, true, some 1, none⟩, ⟨6, false, some 2, some "timeout"⟩]).calculate_health_score ≤ 1 :=
  spec_C3_health_score_unit_interval _ (by
    intro o ho t ht
    fin_cases ho <;> simp_all <;> norm_num [← ht])

/-- Helper: a candidate offered by the checkout filter has its
concurrent-use count strictly under the per-proxy cap. -/
theorem mem_mgr_available {now ms : ℚ} {cc : Option String} {st : ManagerState}
    {x : String × ℚ} (h : x ∈ mgr_available now ms cc st) :
    usesOf st x.1 < max_concurrent_per_proxy := by
  rw [mgr_available, List.mem_filterMap] at h
  obtain ⟨pd, hpd, hf⟩ := h
  split at hf
  · rename_i hcond
    cases hf
    exact hcond.2.1
  · cases hf

/-- Helper: rotation-stat bookkeeping never touches the concurrency map. -/
theorem update_rotation_stats_concurrent (now : ℚ) (url : String) (st : ManagerState) :
    (update_rotation_stats now url st).concurrent_uses = st.concurrent_uses := rfl

/-- Cap invariant: every recorded concurrent-use count is at most the
per-proxy cap and the counts sum to at most the pool-wide cap. -/
def CapsOK (max_concurrent : ℤ) (st : ManagerState) : Prop :=
  (∀ e ∈ st.concurrent_uses, e.2 ≤ max_concurrent_per_proxy) ∧
  totalConcurrent st ≤ max_concurrent

/-- Helper: one checkout call preserves the cap invariant. -/
theorem capsOK_step (M : ℤ) (now ms : ℚ) (cc : Option String) (st : ManagerState)
    (h : CapsOK M st) : CapsOK M (mgr_get_proxy now ms M cc st).2 := by
  rw [mgr_get_proxy]
  split
  · exact h
  split
  · exact h
  rename_i hproxies htot
  split
  · exact h
  rename_i sel heq
  show CapsOK M (update_rotation_stats now sel.1 (incUses sel.1 st))
  have hlt := mem_mgr_available (pickBest_mem _ _ _ heq)
  constructor
  · intro e he
    rw [update_rotation_stats_concurrent] at he
    simp only [incUses] at he
    rcases mem_setEntry he with h2 | h2
    · rw [h2]
      exact Int.add_one_le_iff.mpr hlt
    · exact h.1 e h2
  · show totalConcurrent (update_rotation_stats now sel.1 (incUses sel.1 st)) ≤ M
    rw [totalConcurrent, update_rotation_stats_concurrent]
    simp only [incUses]
    rw [show usesOf st sel.1 + 1 = (lookupA sel.1 st.concurrent_uses).getD 0 + 1 from rfl]
    rw [sum_setEntry_inc]
    have htot2 : totalConcurrent st < M := lt_of_not_le htot
    rw [totalConcurrent] at htot2
    linarith

/-- One checkout call: timestamp, minimum score and requested country. -/
structure CheckoutCall where
  now : ℚ
  min_score : ℚ
  country_code : Option String

/-- Fold of a checkout call sequence under a fixed pool-wide cap, keeping
the resulting manager state. -/
def runCheckouts (max_concurrent : ℤ) (calls : List CheckoutCall)
    (st : ManagerState) : ManagerState :=
  calls.foldl
    (fun st c => (mgr_get_proxy c.now c.min_score max_concurrent c.country_code st).2) st

/-- C5: from any state within the caps, no sequence of checkout calls
under a fixed pool-wide cap ever drives a relay's concurrent-use count
above the per-relay cap, nor the sum of all counts above the pool-wide
cap — a checkout that would do either selects another candidate or
returns nothing. -/
theorem spec_C5_concurrency_caps (max_concurrent : ℤ) (calls : List CheckoutCall)
    (st : ManagerState) (h : CapsOK max_concurrent st) :
    CapsOK max_concurrent (runCheckouts max_concurrent calls st) := by
  induction calls generalizing st with
  | nil => exact h
  | cons c rest ih =>
    rw [runCheckouts, List.foldl_cons]
    exact ih _ (capsOK_step _ _ _ _ _ h)

/-- Witness for the C5 theorem: a fresh manager with one registered proxy
and two checkout calls. -/
theorem spec_C5_witness :
    CapsOK 5 (runCheckouts 5 [⟨0, 0, none⟩, ⟨30, 0, none⟩] { proxies := [("p", none)] }) :=
  spec_C5_concurrency_caps 5 _ _
    ⟨fun e he => absurd he (List.not_mem_nil e), by norm_num [totalConcurrent]⟩

/-- Helper: the concurrency map after a release is the old map with the
released key deleted and unregistered proxies swept out. -/
theorem release_concurrent_uses (url : String) (st : ManagerState) :
    (release_proxy (some url) st).concurrent_uses =
      (removeKey url st.concurrent_uses).filter
        (fun e => e.1 ∈ st.proxies.map Prod.fst) := by
  rw [release_proxy]
  split <;> rfl

/-- Helper: immediately after `release_proxy` the released relay has no
concurrent-use record, so its count reads zero. -/
theorem release_usesOf_zero (url : String) (st : ManagerState) :
    usesOf (release_proxy (some url) st) url = 0 := by
  rw [usesOf, release_concurrent_uses]
  rw [lookupA_eq_none]
  · rfl
  · intro e he
    have h1 := (List.mem_filter.mp he).1
    simp only [removeKey] at h1
    have h2 := (List.mem_filter.mp h1).2
    simpa using h2

/-- C6 amended: release deletes the relay's concurrent-use record,
resetting its count to zero — which equals a decrement by one exactly
when the count was one; a second release of the same relay (or of an
unknown one) still reads zero, and no release drives any nonnegative
count negative. -/
theorem spec_C6_release_resets_to_zero (st : ManagerState) (url : String)
    (hpos : ∀ e ∈ st.concurrent_uses, 0 ≤ e.2) :
    usesOf (release_proxy (some url) st) url = 0 ∧
    (∀ v, 0 ≤ usesOf (release_proxy (some url) st) v) ∧
    usesOf (release_proxy (some url) (release_proxy (some url) st)) url = 0 := by
  refine ⟨release_usesOf_zero url st, ?_, release_usesOf_zero url _⟩
  intro v
  rw [usesOf]
  cases hv : lookupA v (release_proxy (some url) st).concurrent_uses with
  | none => norm_num
  | some c =>
    have hmem := lookupA_mem hv
    rw [release_concurrent_uses] at hmem
    have h1 := (List.mem_filter.mp hmem).1
    simp only [removeKey] at h1
    have h2 := (List.mem_filter.mp h1).1
    simpa using hpos _ h2

/-- Manager whose relay "p" is checked out twice concurrently. -/
def doubleUsePool : ManagerState :=
  { proxies := [("p", none)], concurrent_uses := [("p", 2)] }

/-- C6 counterexample: releasing a relay with concurrent-use count 2
deletes the record, resetting the count to 0 rather than decrementing it
to 1 as the claim requires. -/
theorem spec_C6_release_not_decrement :
    usesOf (release_proxy (some "p") doubleUsePool) "p" = 0 ∧
    usesOf doubleUsePool "p" - 1 = 1 ∧
    usesOf (release_proxy (some "p") doubleUsePool) "p" ≠ usesOf doubleUsePool "p" - 1 := by
  norm_num [release_proxy, cleanup_unused_stats, doubleUsePool, usesOf, lookupA,
    removeKey, setEntry, List.filter_cons, List.filter_nil,
    List.filterMap_cons, List.filterMap_nil]

/-- Witness for the C6 theorem at a concrete single-use state. -/
theorem spec_C6_witness :
    usesOf (release_proxy (some "r") { proxies := [("r", none)], concurrent_uses := [("r", 1)] }) "r" = 0 ∧
    (∀ v, 0 ≤ usesOf (release_proxy (some "r") { proxies := [("r", none)], concurrent_uses := [("r", 1)] }) v) ∧
    usesOf (release_proxy (some "r") (release_proxy (some "r") { proxies := [("r", none)], concurrent_uses := [("r", 1)] })) "r" = 0 :=
  spec_C6_release_resets_to_zero { proxies := [("r", none)], concurrent_uses := [("r", 1)] } "r"
    (by intro e he; simp only [List.mem_singleton] at he; rw [he]; norm_num)

/-- Pool whose single relay recorded exactly the ten samples 0.1 .. 1.0. -/
def tenSamplePool : PoolState :=
  { proxies := ["p"],
    proxy_stats := [("p",
      { response_times := [1/10, 2/10, 3/10, 4/10, 5/10, 6/10, 7/10, 8/10, 9/10, 1] })] }

/-- C7: on the sample set 0.1, 0.2, ..., 1.0 the metrics reporter yields
p50 = 0.55 and p90 = 0.91, matching linear interpolation at index
k = (n-1)·p over the sorted samples. -/
theorem spec_C7_percentiles :
    (get_response_time_percentiles tenSamplePool).p50 = 55/100 ∧
    (get_response_time_percentiles tenSamplePool).p90 = 91/100 := by
  have hc : ⌈(81/10 : ℚ)⌉ = 9 := by
    rw [Int.ceil_eq_iff]
    norm_num
  norm_num [get_response_time_percentiles, tenSamplePool, sortAsc, insertSorted,
    get_percentile, round3, List.foldr_cons, List.foldr_nil, List.cons_ne_nil,
    hc, show Int.toNat 8 = 8 from rfl, show Int.toNat 9 = 9 from rfl]

/-- Pointwise equality of the five persisted score fields. -/
def persistedFieldsEq (a b : ProxyScore) : Prop :=
  a.success_count = b.success_count ∧ a.fail_count = b.fail_count ∧
  a.avg_response_time = b.avg_response_time ∧
  a.last_success = b.last_success ∧ a.last_used = b.last_used

/-- C8: saving the score cache and loading it back yields, relay by relay
(same keys in the same order), scores agreeing on success count, fail
count, average response time and the last-success / last-used
timestamps. -/
theorem spec_C8_cache_roundtrip (scores : List (String × ProxyScore)) :
    List.Forall₂ (fun a b => a.1 = b.1 ∧ persistedFieldsEq a.2 b.2)
      scores (load_cache (save_cache scores)) := by
  induction scores with
  | nil => simp [save_cache, load_cache]
  | cons e rest ih =>
    simp only [save_cache, load_cache, List.map_cons] at ih ⊢
    exact List.Forall₂.cons ⟨rfl, rfl, rfl, rfl, rfl, rfl⟩ ih

/-- Source in its initial configured state (active, hourly interval). -/
def sourceS : ProxySource := { name := "s" }

/-- Three HTTP-successful fetch cycles each validating 0 of 50 candidates,
run at the source's own cadence, followed by a cleanup pass just after
the third fetch. -/
def zeroValidatedRun : SourceManagerState :=
  cleanup_sources 7201
    { sources := [("s",
        fetch_cycle 7200 true 0 50
          (fetch_cycle 3600 true 0 50
            (fetch_cycle 0 true 0 50 sourceS)))],
      last_cleanup := none }

/-- C9 counterexample: a source whose three consecutive fetch cycles all
succeeded at the HTTP level while validating 0% of their candidates is
still active after cleanup — cleanup keys on a stale `last_fetch`, which
successful fetches keep fresh, not on the validated percentage. -/
theorem spec_C9_zero_validation_stays_active :
    (lookupA "s" zeroValidatedRun.sources).map ProxySource.active = some true := by
  norm_num [zeroValidatedRun, sourceS, cleanup_sources, cleanupThrottled,
    deactivateIfStale, staleSource, fetch_cycle, fetch_proxies_step,
    fetchThrottled, update_source_stats, lookupA, List.map_cons]

/-- C9 amended: when cleanup runs (not throttled), a registered source is
deactivated exactly when its last successful fetch is older than three
times its fetch interval, and it stays in the registry either way
(deactivated, not deleted); the validated-candidate percentage plays no
role. -/
theorem spec_C9_cleanup_rule (now : ℚ) (st : SourceManagerState) (nm : String)
    (src : ProxySource) (hthr : cleanupThrottled now st.last_cleanup = false)
    (hl : lookupA nm st.sources = some src) :
    lookupA nm (cleanup_sources now st).sources = some (deactivateIfStale now src) := by
  rw [cleanup_sources, if_neg (by simp [hthr])]
  show lookupA nm (st.sources.map (fun e => (e.1, deactivateIfStale now e.2))) = _
  rw [lookupA_map_val (deactivateIfStale now), hl]
  rfl

/-- Registry holding one source last fetched at t = 0 with a one hour
interval. -/
def staleRegistry : SourceManagerState :=
  { sources := [("t", { name := "t", last_fetch := some 0 })] }

/-- Witness for the C9 theorem: examined at t = 20000, well past three
fetch intervals, the source is kept but deactivated. -/
theorem spec_C9_witness :
    lookupA "t" (cleanup_sources 20000 staleRegistry).sources =
      some { name := "t", active := false, last_fetch := some 0 } := by
  have h := spec_C9_cleanup_rule 20000 staleRegistry "t" { name := "t", last_fetch := some 0 }
    rfl (by norm_num [staleRegistry, lookupA])
  rw [h]
  norm_num [deactivateIfStale, staleSource]
